import Mathlib

/-!
# Verification of the terminal-session orchestration of `useDocumentTerminal.ts`

This file gives a shallow embedding of the session-establishment code in
`web/packages/teleterm/src/ui/DocumentTerminal/useDocumentTerminal.ts` and proves
properties of it.

Modelling choices:
* JavaScript strings are modelled as `List Char` (`JSString`).
* The external document store (`DocumentsService`) is modelled by recording the
  sequence of `update`/`close` calls as a list of `StoreOp` values; an `update`
  carries a merge patch (`DocPatch`) in which `none` means "field not mentioned"
  and, for fields that the source explicitly sets to `undefined`, `some none`
  means "key set to undefined".
* The asynchronous lookup `ctx.resourcesService.getServerByHostname` (wrapped in
  `retryWithRelogin`) is modelled as a function `JSString → LookupOutcome`
  passed in as a parameter; a thrown `AmbiguousHostnameError` and any other
  thrown error are separate constructors.
* Fallible code returns `Except JSString α`, the error message standing in for
  the thrown JavaScript error.
* PTY process events (`onOpen`, `onData`, `onExit`) are modelled as pure
  handler functions from the data captured in the source's closures to the
  store operations the handler issues; the working directory obtained from
  `ptyProcess.getCwd()` and the cluster name are handler inputs.
-/

namespace TeleportTerminal

/-- JavaScript strings are modelled as lists of characters. -/
abbrev JSString := List Char

/-- Helper to write model string literals. -/
def js (s : String) : JSString := s.toList

/-- Status values a status-tracking terminal document can take. -/
inductive DocStatus
  | connecting
  | connected
  | error
  deriving DecidableEq, Repr

/-- The document kinds handled by `useDocumentTerminal.ts`:
`doc.terminal_tsh_node`, `doc.terminal_tsh_kube`, `doc.terminal_shell`. -/
inductive DocKind
  | terminal_tsh_node
  | terminal_tsh_kube
  | terminal_shell
  deriving DecidableEq, Repr

/-- A server URI, kept abstract as the record of its route parameters. -/
structure ServerUri where
  rootClusterId : JSString
  leafClusterId : Option JSString
  serverId : JSString
  deriving DecidableEq, Repr

/-- The fields of `tsh.Server` used by `resolveLoginHost`. -/
structure Server where
  uri : ServerUri
  hostname : JSString
  deriving DecidableEq, Repr

/-- Modelled from the spec: `routing.getServerUri` of the external routing module
(`teleterm/ui/uri`, not among the sampled sources) builds a server URI from the
cluster ids and a server id; URIs are kept abstract as their parameter records. -/
def routingGetServerUri (rootClusterId : JSString) (leafClusterId : Option JSString)
    (serverId : JSString) : ServerUri :=
  ⟨rootClusterId, leafClusterId, serverId⟩

/-- Modelled from the spec: `routing.parseServerUri(u).params.serverId` of the
external routing module recovers the server-id segment of a server URI. -/
def routingParseServerUriServerId (u : ServerUri) : JSString :=
  u.serverId

/-- A terminal document, flattening the tagged union of
`doc.terminal_tsh_node` (with either `loginHost` or `serverId`/`serverUri`),
`doc.terminal_tsh_kube` and `doc.terminal_shell`. Fields that a given variant
does not carry are `none`. `status = none` models a document without a
`status` key (`'status' in doc` is `status.isSome`). Kube-specific payload
fields not read by the sampled code are omitted. -/
structure Doc where
  uri : JSString
  kind : DocKind
  loginHost : Option JSString
  login : Option JSString
  serverId : Option JSString
  serverUri : Option ServerUri
  title : JSString
  status : Option DocStatus
  cwd : Option JSString
  initCommand : Option JSString
  rootClusterId : JSString
  leafClusterId : Option JSString
  deriving DecidableEq, Repr

/-- Modelled from the spec: `isDocumentTshNodeWithLoginHost` (from
`teleterm/ui/services/workspacesService`, not among the sampled sources) tests
for the tsh-node document variant that still carries an unresolved `loginHost`. -/
def isDocumentTshNodeWithLoginHost (doc : Doc) : Bool :=
  doc.kind == DocKind.terminal_tsh_node && doc.loginHost.isSome

/-- Well-formedness of a document with respect to the TypeScript union type:
a tsh-node document carries `loginHost` exactly when it does not yet carry a
`serverId`, and only shell documents carry an `initCommand`. -/
def DocWf (d : Doc) : Prop :=
  (d.kind = DocKind.terminal_tsh_node → (d.loginHost.isSome ↔ d.serverId = none)) ∧
  (d.initCommand.isSome → d.kind = DocKind.terminal_shell)

instance (d : Doc) : Decidable (DocWf d) := by
  unfold DocWf
  infer_instance

/-- A merge patch passed to `documentsService.update`. `none`: the field is not
mentioned by the patch. For `loginHost`, `login` and `initCommand`, which the
source sometimes explicitly sets to `undefined`, the value is doubly optional:
`some none` records "key present with value undefined". -/
structure DocPatch where
  loginHost : Option (Option JSString) := none
  login : Option (Option JSString) := none
  serverId : Option JSString := none
  serverUri : Option ServerUri := none
  title : Option JSString := none
  status : Option DocStatus := none
  cwd : Option JSString := none
  initCommand : Option (Option JSString) := none
  deriving DecidableEq, Repr

/-- Applying a merge patch to a document (the semantics of
`documentsService.update` and of the object spread `{...doc, ...fields}`). -/
def applyPatch (d : Doc) (p : DocPatch) : Doc :=
  { d with
    loginHost := p.loginHost.getD d.loginHost
    login := p.login.getD d.login
    serverId := (p.serverId.map some).getD d.serverId
    serverUri := (p.serverUri.map some).getD d.serverUri
    title := p.title.getD d.title
    status := (p.status.map some).getD d.status
    cwd := (p.cwd.map some).getD d.cwd
    initCommand := p.initCommand.getD d.initCommand }

/-- One call to the external document store. -/
inductive StoreOp
  | update (uri : JSString) (patch : DocPatch)
  | close (uri : JSString)
  deriving DecidableEq, Repr

/-- Outcome of `getServerByHostname` (through `retryWithRelogin`):
a server, no server, a thrown `AmbiguousHostnameError`, or any other thrown
error. -/
inductive LookupOutcome
  | found (server : Server)
  | notFound
  | ambiguousError (message : JSString)
  | otherError (message : JSString)
  deriving DecidableEq, Repr

/-- Splitting helper: first chunk before `sep` and the remaining chunks.
`splitAux sep s` processes `s` from the left. -/
def splitAux (sep : Char) : List Char → List Char × List (List Char)
  | [] => ([], [])
  | c :: cs =>
    let r := splitAux sep cs
    if c = sep then ([], r.1 :: r.2) else (c :: r.1, r.2)

/-- JavaScript `s.split(sep)` for a single-character separator: always returns
at least one (possibly empty) chunk. -/
def splitOnChar (sep : Char) (s : List Char) : List (List Char) :=
  (splitAux sep s).1 :: (splitAux sep s).2

/-- JavaScript `parts.join(sep)` for a single-character separator. -/
def joinWith (sep : Char) : List (List Char) → List Char
  | [] => []
  | [p] => p
  | p :: q :: ps => p ++ sep :: joinWith sep (q :: ps)

/-- The parsing step of `resolveLoginHost` (lines 109–129 of the source):
split `loginHost` on `'@'`; with more than one part the last part is the host
and the parts before it, rejoined with `'@'`, are the login; otherwise the
whole string is the host and there is no login. -/
def parseLoginHost (loginHost : JSString) : Option JSString × JSString :=
  let parts := splitOnChar '@' loginHost
  if parts.length > 1 then
    (some (joinWith '@' parts.dropLast), parts.getLastD [])
  else
    (none, parts.headD [])

/-- The result of a successful `resolveLoginHost`: the updated document
returned to the caller, the store operations issued, and the messages passed
to `logger.error`. -/
structure ResolveResult where
  updatedDoc : Doc
  storeOps : List StoreOp
  loggedErrors : List JSString
  deriving DecidableEq, Repr

/-- The title derivation of line 165, `login ? login@hostname : hostname`,
with JavaScript truthiness: an absent or empty login yields the bare
hostname. -/
def titleFor (login : Option JSString) (serverHostname : JSString) : JSString :=
  match login with
  | some l => if l = [] then serverHostname else l ++ '@' :: serverHostname
  | none => serverHostname

/-- `docFieldsToUpdate` of lines 167–173: clear `loginHost`, set `serverId`
(parsed back out of the server URI), `serverUri`, `login` and `title`. -/
def resolvedPatch (login : Option JSString) (serverUri : ServerUri)
    (serverHostname : JSString) : DocPatch :=
  { loginHost := some none
    serverId := some (routingParseServerUriServerId serverUri)
    serverUri := some serverUri
    login := some login
    title := some (titleFor login serverHostname) }

/-- The tail of `resolveLoginHost` (lines 165–182): build `docFieldsToUpdate`,
issue the single store update and return the merged document. -/
def finishResolve (doc : Doc) (login : Option JSString)
    (serverUri : ServerUri) (serverHostname : JSString)
    (logs : List JSString) : ResolveResult :=
  ⟨applyPatch doc (resolvedPatch login serverUri serverHostname),
   [StoreOp.update doc.uri (resolvedPatch login serverUri serverHostname)],
   logs⟩

/-- `resolveLoginHost` (lines 103–183): parse `loginHost`, look the host up by
hostname; on `AmbiguousHostnameError` log and continue, on any other error
rethrow; without a found server fall back to the raw host string as a literal
server id; then update the store once and return the merged document. -/
def resolveLoginHost (lookup : JSString → LookupOutcome) (doc : Doc) :
    Except JSString ResolveResult :=
  let lh := doc.loginHost.getD []
  let login := (parseLoginHost lh).1
  let host := (parseLoginHost lh).2
  match lookup host with
  | LookupOutcome.found s => Except.ok (finishResolve doc login s.uri s.hostname [])
  | LookupOutcome.notFound =>
      Except.ok (finishResolve doc login
        (routingGetServerUri doc.rootClusterId doc.leafClusterId host) host [])
  | LookupOutcome.ambiguousError msg =>
      Except.ok (finishResolve doc login
        (routingGetServerUri doc.rootClusterId doc.leafClusterId host) host [msg])
  | LookupOutcome.otherError msg => Except.error msg

/-- The hostname the resolution ends up using for the title: the found
server's hostname, or the raw host on any fallback. Used only to state
theorems. -/
def lookedUpHostname (lookup : JSString → LookupOutcome) (host : JSString) : JSString :=
  match lookup host with
  | LookupOutcome.found s => s.hostname
  | _ => host

/-- The kinds of `PtyCommand` produced by `createCmd`:
`pty.tsh-login`, `pty.tsh-kube-login`, `pty.shell`. -/
inductive PtyCommandKind
  | tsh_login
  | tsh_kube_login
  | shell
  deriving DecidableEq, Repr

/-- A PTY command, flattening the union of the three command shapes. -/
structure PtyCommand where
  kind : PtyCommandKind
  proxyHost : JSString
  clusterName : JSString
  login : Option JSString
  serverId : Option JSString
  rootClusterId : JSString
  leafClusterId : Option JSString
  cwd : Option JSString
  initCommand : Option JSString
  deriving DecidableEq, Repr

/-- The command kind matching each document kind. Used only to state
theorems. -/
def matchingPtyKind : DocKind → PtyCommandKind
  | DocKind.terminal_tsh_node => PtyCommandKind.tsh_login
  | DocKind.terminal_tsh_kube => PtyCommandKind.tsh_kube_login
  | DocKind.terminal_shell => PtyCommandKind.shell

/-- `createCmd` (lines 311–351): throw for a tsh-node document still carrying
`loginHost`; otherwise build the command of the matching kind, spreading the
document's fields through for kube and shell documents and injecting
`proxyHost` and `clusterName`. -/
def createCmd (doc : Doc) (proxyHost clusterName : JSString) :
    Except JSString PtyCommand :=
  match doc.kind with
  | DocKind.terminal_tsh_node =>
    if isDocumentTshNodeWithLoginHost doc then
      Except.error (js "Cannot create a PTY for doc.terminal_tsh_node without serverId")
    else
      Except.ok
        { kind := PtyCommandKind.tsh_login
          proxyHost := proxyHost
          clusterName := clusterName
          login := doc.login
          serverId := doc.serverId
          rootClusterId := doc.rootClusterId
          leafClusterId := doc.leafClusterId
          cwd := none
          initCommand := none }
  | DocKind.terminal_tsh_kube =>
    Except.ok
      { kind := PtyCommandKind.tsh_kube_login
        proxyHost := proxyHost
        clusterName := clusterName
        login := doc.login
        serverId := doc.serverId
        rootClusterId := doc.rootClusterId
        leafClusterId := doc.leafClusterId
        cwd := doc.cwd
        initCommand := doc.initCommand }
  | DocKind.terminal_shell =>
    Except.ok
      { kind := PtyCommandKind.shell
        proxyHost := proxyHost
        clusterName := clusterName
        login := doc.login
        serverId := doc.serverId
        rootClusterId := doc.rootClusterId
        leafClusterId := doc.leafClusterId
        cwd := doc.cwd
        initCommand := doc.initCommand }

/-- Patches issued by the event handlers and the orchestrator. -/
def connectedStatusPatch : DocPatch := { status := some DocStatus.connected }

/-- The `{ status: 'connecting' }` patch issued by `reconnect`. -/
def connectingStatusPatch : DocPatch := { status := some DocStatus.connecting }

/-- The `{ status: 'error' }` patch issued by the orchestrator's catch block. -/
def errorStatusPatch : DocPatch := { status := some DocStatus.error }

/-- The `{ initCommand: undefined }` patch issued by `removeInitCommand`. -/
def clearInitCommandPatch : DocPatch := { initCommand := some none }

/-- The body of `markDocumentAsConnectedOnce` (lines 261–265): update the
status to `connected` if the document has a `status` key. -/
def markDocumentAsConnected (doc : Doc) : List StoreOp :=
  if doc.status.isSome then [StoreOp.update doc.uri connectedStatusPatch] else []

/-- Modelled from the spec: `runOnce` (from `shared/utils/highbar`, not among
the sampled sources) wraps a function in a one-shot gate so that only the
first invocation runs the body. One invocation step: given the gate's state,
return the issued operations and the new state. -/
def runOnceStep (body : List StoreOp) (hasRun : Bool) : List StoreOp × Bool :=
  if hasRun then ([], true) else (body, true)

/-- One `onData` event (line 268): invoke the `runOnce`-gated
`markDocumentAsConnectedOnce`. -/
def onDataEvent (doc : Doc) (hasRun : Bool) : List StoreOp × Bool :=
  runOnceStep (markDocumentAsConnected doc) hasRun

/-- The store operations issued by a sequence of `n` data events starting from
gate state `hasRun`. -/
def runDataEvents (doc : Doc) : Nat → Bool → List StoreOp
  | 0, _ => []
  | Nat.succ n, hasRun =>
    (onDataEvent doc hasRun).1 ++ runDataEvents doc n (onDataEvent doc hasRun).2

/-- One `onExit` event (lines 270–283): close the document exactly on exit
code zero. -/
def onExitEvent (doc : Doc) (exitCode : Int) : List StoreOp :=
  if exitCode = 0 then [StoreOp.close doc.uri] else []

/-- `refreshTitle` (lines 228–238): for a shell command, update the document's
`cwd` and title `"<cwd> · <clusterName>"`, the cwd segment defaulting to
`'Terminal'` when the queried cwd is empty (JavaScript `cwd || 'Terminal'`).
The cwd returned by `ptyProcess.getCwd()` and the cluster name are inputs. -/
def refreshTitleOps (cmd : PtyCommand) (doc : Doc) (cwd clusterName : JSString) :
    List StoreOp :=
  if cmd.kind = PtyCommandKind.shell then
    [StoreOp.update doc.uri
      { cwd := some cwd
        title := some ((if cwd = [] then js "Terminal" else cwd) ++ js " · " ++ clusterName) }]
  else []

/-- `removeInitCommand` (lines 240–251): for a shell document, clear the
persisted `initCommand`. -/
def removeInitCommandOps (doc : Doc) : List StoreOp :=
  if doc.kind = DocKind.terminal_shell then
    [StoreOp.update doc.uri clearInitCommandPatch]
  else []

/-- One `onOpen` event (lines 253–256): `refreshTitle` and
`removeInitCommand`. -/
def onOpenEvent (cmd : PtyCommand) (doc : Doc) (cwd clusterName : JSString) :
    List StoreOp :=
  refreshTitleOps cmd doc cwd clusterName ++ removeInitCommandOps doc

/-- Creation status reported by the process factory. -/
inductive PtyProcessCreationStatus
  | ok
  | resolveShellEnvTimeout
  deriving DecidableEq, Repr

/-- The parts of the app context that `setUpPtyProcess` reads, as data:
the cluster found for the document's cluster URI (its name, if any), the root
cluster's `proxyHost`, and the creation status the process factory will
report. -/
structure SetupCtx where
  findClusterName : Option JSString
  proxyHost : JSString
  creationStatus : PtyProcessCreationStatus
  deriving DecidableEq, Repr

/-- `getClusterName` (lines 190–209): the found cluster's name, else the leaf
cluster id from the URI, else a thrown error. -/
def getClusterName (ctx : SetupCtx) (doc : Doc) : Except JSString JSString :=
  match ctx.findClusterName with
  | some name => Except.ok name
  | none =>
    match doc.leafClusterId with
    | some leafClusterId => Except.ok leafClusterId
    | none =>
      Except.error
        (js "The leaf cluster URI was expected, but the URI does not contain the leaf cluster ID")

/-- The warning emitted by `createPtyProcess` on a shell-environment
resolution timeout. -/
def shellEnvTimeoutWarning : JSString :=
  js "Could not source environment variables for shell session"

/-- The synchronous outcome of `setUpPtyProcess`: the built command, the fresh
(not yet run) one-shot gate for `markDocumentAsConnectedOnce`, the warnings
emitted during process creation and the usage protocols captured. -/
structure Session where
  cmd : PtyCommand
  dataGateHasRun : Bool
  warnings : List JSString
  usage : List JSString
  deriving DecidableEq, Repr

/-- `setUpPtyProcess` (lines 185–290) together with `createPtyProcess`
(lines 292–309): compute the cluster name, build the command, create the
process (warning on environment-resolution timeout), capture protocol usage,
and register the event handlers with a fresh one-shot `connected` gate. -/
def setUpPtyProcess (ctx : SetupCtx) (doc : Doc) : Except JSString Session :=
  match getClusterName ctx doc with
  | Except.error e => Except.error e
  | Except.ok clusterName =>
    match createCmd doc ctx.proxyHost clusterName with
    | Except.error e => Except.error e
    | Except.ok cmd =>
      let warnings :=
        if ctx.creationStatus = PtyProcessCreationStatus.resolveShellEnvTimeout then
          [shellEnvTimeoutWarning]
        else []
      let usage :=
        (if cmd.kind = PtyCommandKind.tsh_login then [js "ssh"] else []) ++
          (if cmd.kind = PtyCommandKind.tsh_kube_login then [js "kube"] else [])
      Except.ok ⟨cmd, false, warnings, usage⟩

/-- `startTerminalSession` (lines 82–93): resolve the login host first when
the document still carries one, then set up the PTY process. The second
component collects the store operations issued along the way (the resolver's
update is issued even when the later setup throws). -/
def startTerminalSession (lookup : JSString → LookupOutcome) (ctx : SetupCtx)
    (doc : Doc) : Except JSString (Session × Doc) × List StoreOp :=
  if isDocumentTshNodeWithLoginHost doc then
    match resolveLoginHost lookup doc with
    | Except.error e => (Except.error e, [])
    | Except.ok r =>
      match setUpPtyProcess ctx r.updatedDoc with
      | Except.error e => (Except.error e, r.storeOps)
      | Except.ok s => (Except.ok (s, r.updatedDoc), r.storeOps)
  else
    match setUpPtyProcess ctx doc with
    | Except.error e => (Except.error e, [])
    | Except.ok s => (Except.ok (s, doc), [])

/-- The orchestrator's attempt body (lines 43–58): run
`startTerminalSession`; on a thrown error, first set the document status to
`error` when the document has a `status` key, then rethrow. -/
def startTerminalAttempt (lookup : JSString → LookupOutcome) (ctx : SetupCtx)
    (doc : Doc) : Except JSString (Session × Doc) × List StoreOp :=
  match startTerminalSession lookup ctx doc with
  | (Except.ok s, ops) => (Except.ok s, ops)
  | (Except.error e, ops) =>
    (Except.error e,
      ops ++ if doc.status.isSome then [StoreOp.update doc.uri errorStatusPatch] else [])

/-- Status of a `useAsync` attempt. -/
inductive AttemptStatus
  | empty
  | processing
  | success
  | error
  deriving DecidableEq, Repr

/-- Actions of the orchestrator hook, in the order they are taken. -/
inductive AttemptAction
  | storeUpdate (uri : JSString) (patch : DocPatch)
  | startAttempt
  | disposeHandle
  deriving DecidableEq, Repr

/-- `reconnect` (lines 72–77): synchronously set the status to `connecting`
when the document has a `status` key, then invoke the async start. -/
def reconnectActions (doc : Doc) : List AttemptAction :=
  (if doc.status.isSome then [AttemptAction.storeUpdate doc.uri connectingStatusPatch]
   else []) ++ [AttemptAction.startAttempt]

/-- The effect cleanup (lines 65–69), run when an attempt is superseded or the
component unmounts: dispose the process handle of a successful attempt. -/
def effectCleanup (priorAttempt : AttemptStatus) : List AttemptAction :=
  if priorAttempt = AttemptStatus.success then [AttemptAction.disposeHandle] else []

/-! ## Concrete instances used by witnesses and counterexamples -/

/-- A tsh-node document with an unresolved `loginHost` and tracked status. -/
def docLH (lh : String) : Doc :=
  { uri := js "/docs/1"
    kind := DocKind.terminal_tsh_node
    loginHost := some (js lh)
    login := none
    serverId := none
    serverUri := none
    title := js "doc"
    status := some DocStatus.connecting
    cwd := none
    initCommand := none
    rootClusterId := js "prod"
    leafClusterId := none }

/-- A shell document with an `initCommand` and tracked status. -/
def shellDoc : Doc :=
  { uri := js "/docs/2"
    kind := DocKind.terminal_shell
    loginHost := none
    login := none
    serverId := none
    serverUri := none
    title := js "sh"
    status := some DocStatus.connecting
    cwd := some (js "/home")
    initCommand := some (js "ls")
    rootClusterId := js "prod"
    leafClusterId := none }

/-- A lookup in which no hostname matches a server. -/
def lookupNone : JSString → LookupOutcome := fun _ => LookupOutcome.notFound

/-- A setup context with a found cluster. -/
def ctx0 : SetupCtx :=
  { findClusterName := some (js "prod")
    proxyHost := js "proxy.example.com:3080"
    creationStatus := PtyProcessCreationStatus.ok }

/-- A lookup that always fails with a non-ambiguity error. -/
def lookupBoom : JSString → LookupOutcome :=
  fun _ => LookupOutcome.otherError (js "boom")

/-- A concrete shell command. -/
def shellCmd : PtyCommand :=
  { kind := PtyCommandKind.shell
    proxyHost := js "proxy.example.com:3080"
    clusterName := js "prod"
    login := none
    serverId := none
    rootClusterId := js "prod"
    leafClusterId := none
    cwd := some (js "/home")
    initCommand := some (js "ls") }

/-- A lookup that always fails with `AmbiguousHostnameError`. -/
def lookupAmb : JSString → LookupOutcome :=
  fun _ => LookupOutcome.ambiguousError (js "ambiguous hostname")

/-- Projection used by the counterexamples: the stored login and title of the
document produced by resolving the given document against the given lookup. -/
def resolvedLoginTitle (lookup : JSString → LookupOutcome) (doc : Doc) :
    Option (Option JSString × JSString) :=
  (resolveLoginHost lookup doc).toOption.map fun r =>
    (r.updatedDoc.login, r.updatedDoc.title)

/-! ## Properties of the splitting helpers -/

theorem splitAux_no_sep (sep : Char) (s : List Char) (h : sep ∉ s) :
    splitAux sep s = (s, []) := by
  induction s with
  | nil => rfl
  | cons c cs ih =>
    simp only [List.mem_cons, not_or] at h
    simp [splitAux, if_neg (Ne.symm h.1), ih h.2]

theorem splitAux_snd_ne_nil (sep : Char) (s : List Char) (h : sep ∈ s) :
    (splitAux sep s).2 ≠ [] := by
  induction s with
  | nil => simp at h
  | cons c cs ih =>
    by_cases hc : c = sep
    · simp [splitAux, hc]
    · have hcs : sep ∈ cs := by
        rcases List.mem_cons.mp h with h1 | h2
        · exact absurd h1.symm hc
        · exact h2
      simpa [splitAux, hc] using ih hcs

theorem splitAux_chunks_sep_free (sep : Char) (s : List Char) :
    ∀ p ∈ (splitAux sep s).1 :: (splitAux sep s).2, sep ∉ p := by
  induction s with
  | nil => intro p hp; simp [splitAux] at hp; simp [hp]
  | cons c cs ih =>
    intro p hp
    by_cases hc : c = sep
    · simp only [splitAux, hc, if_pos rfl] at hp
      rcases List.mem_cons.mp hp with h1 | h2
      · simp [h1]
      · exact ih p h2
    · simp only [splitAux, if_neg hc] at hp
      rcases List.mem_cons.mp hp with h1 | h2
      · subst h1
        intro hmem
        rcases List.mem_cons.mp hmem with h3 | h4
        · exact hc h3.symm
        · exact ih _ (List.mem_cons_self _ _) h4
      · exact ih p (List.mem_cons_of_mem _ h2)

theorem splitAux_cons_pos (sep c : Char) (cs : List Char) (h : c = sep) :
    splitAux sep (c :: cs) = ([], (splitAux sep cs).1 :: (splitAux sep cs).2) := by
  simp [splitAux, h]

theorem splitAux_cons_neg (sep c : Char) (cs : List Char) (h : ¬c = sep) :
    splitAux sep (c :: cs) = (c :: (splitAux sep cs).1, (splitAux sep cs).2) := by
  simp [splitAux, h]

theorem joinWith_single (sep : Char) (p : List Char) : joinWith sep [p] = p := rfl

theorem joinWith_cons_cons (sep : Char) (p q : List Char) (ps : List (List Char)) :
    joinWith sep (p :: q :: ps) = p ++ sep :: joinWith sep (q :: ps) := rfl

theorem joinWith_splitAux (sep : Char) (s : List Char) :
    joinWith sep ((splitAux sep s).1 :: (splitAux sep s).2) = s := by
  induction s with
  | nil => rfl
  | cons c cs ih =>
    by_cases hc : c = sep
    · rw [splitAux_cons_pos sep c cs hc, joinWith_cons_cons, ih, List.nil_append, hc]
    · rw [splitAux_cons_neg sep c cs hc]
      cases h2 : (splitAux sep cs).2 with
      | nil =>
        rw [h2, joinWith_single] at ih
        show joinWith sep [c :: (splitAux sep cs).1] = c :: cs
        rw [joinWith_single, ih]
      | cons q qs =>
        rw [h2, joinWith_cons_cons] at ih
        show joinWith sep ((c :: (splitAux sep cs).1) :: q :: qs) = c :: cs
        rw [joinWith_cons_cons, List.cons_append, ih]

theorem getLastD_cons_mem (d p : List Char) (ps : List (List Char)) :
    (p :: ps).getLastD d ∈ p :: ps := by
  induction ps generalizing p d with
  | nil => simp [List.getLastD]
  | cons q qs ih =>
    rw [List.getLastD_cons]
    exact List.mem_cons_of_mem _ (ih p q)

theorem joinWith_dropLast_getLastD (sep : Char) (p : List Char)
    (ps : List (List Char)) (h : ps ≠ []) :
    joinWith sep (p :: ps) =
      joinWith sep ((p :: ps).dropLast) ++ sep :: (p :: ps).getLastD [] := by
  induction ps generalizing p with
  | nil => exact absurd rfl h
  | cons q qs ih =>
    cases qs with
    | nil => rfl
    | cons r rs =>
      have ihq := ih q (by simp)
      rw [joinWith_cons_cons, ihq]
      simp [List.dropLast, List.getLastD_cons, joinWith_cons_cons, List.cons_append]

/-! ## Claim theorems -/

/-- C2: `resolveLoginHost`'s parsing step splits `loginHost` on `'@'`: with no
`'@'` the whole string is the host and the login is absent; with at least one
`'@'` the login is present, the host is the final `'@'`-free segment, and
login ++ "@" ++ host reassembles the input (so "a@b@c" yields login "a@b" and
host "c", the unique such decomposition). -/
theorem parseLoginHost_split_spec (lh : JSString) :
    ('@' ∉ lh → parseLoginHost lh = (none, lh)) ∧
    ('@' ∈ lh →
      ∃ l h, parseLoginHost lh = (some l, h) ∧ lh = l ++ '@' :: h ∧ '@' ∉ h) := by
  constructor
  · intro hno
    simp [parseLoginHost, splitOnChar, splitAux_no_sep '@' lh hno]
  · intro hyes
    obtain ⟨q, qs, hq⟩ := List.exists_cons_of_ne_nil (splitAux_snd_ne_nil '@' lh hyes)
    have hsplit : splitOnChar '@' lh = (splitAux '@' lh).1 :: q :: qs := by
      rw [splitOnChar, hq]
    have hlen : (splitOnChar '@' lh).length > 1 := by rw [hsplit]; simp
    have hpl : parseLoginHost lh =
        (some (joinWith '@' ((splitOnChar '@' lh).dropLast)),
          (splitOnChar '@' lh).getLastD []) := by
      unfold parseLoginHost
      rw [if_pos hlen]
    refine ⟨_, _, hpl, ?_, ?_⟩
    · have hrt := joinWith_splitAux '@' lh
      have hdec := joinWith_dropLast_getLastD '@' (splitAux '@' lh).1 (splitAux '@' lh).2
        (by rw [hq]; simp)
      calc lh = joinWith '@' ((splitAux '@' lh).1 :: (splitAux '@' lh).2) := hrt.symm
        _ = joinWith '@' (((splitAux '@' lh).1 :: (splitAux '@' lh).2).dropLast) ++
              '@' :: ((splitAux '@' lh).1 :: (splitAux '@' lh).2).getLastD [] := hdec
        _ = joinWith '@' ((splitOnChar '@' lh).dropLast) ++
              '@' :: (splitOnChar '@' lh).getLastD [] := rfl
    · exact splitAux_chunks_sep_free '@' lh _ (getLastD_cons_mem [] _ _)

/-- Witness for C2 at the inputs "host" (no `'@'`) and "a@b@c". -/
theorem parseLoginHost_split_spec_check :
    parseLoginHost (js "host") = (none, js "host") ∧
    (∃ l h, parseLoginHost (js "a@b@c") = (some l, h) ∧
      js "a@b@c" = l ++ '@' :: h ∧ '@' ∉ h) :=
  ⟨(parseLoginHost_split_spec (js "host")).1 (by decide),
   (parseLoginHost_split_spec (js "a@b@c")).2 (by decide)⟩

/-- C1: when the hostname lookup throws `AmbiguousHostnameError` or returns no
server, `resolveLoginHost` completes without throwing, uses the raw host
segment of `loginHost` as a literal server identifier, and only logs the
ambiguous error. -/
theorem resolveLoginHost_fallback_no_throw
    (lookup : JSString → LookupOutcome) (doc : Doc) (lh : JSString)
    (hlh : doc.loginHost = some lh)
    (hout : lookup (parseLoginHost lh).2 = LookupOutcome.notFound ∨
      ∃ msg, lookup (parseLoginHost lh).2 = LookupOutcome.ambiguousError msg) :
    ∃ r, resolveLoginHost lookup doc = Except.ok r ∧
      r.updatedDoc.serverId = some (parseLoginHost lh).2 ∧
      r.updatedDoc.serverUri =
        some (routingGetServerUri doc.rootClusterId doc.leafClusterId
          (parseLoginHost lh).2) ∧
      (lookup (parseLoginHost lh).2 = LookupOutcome.notFound → r.loggedErrors = []) ∧
      (∀ msg, lookup (parseLoginHost lh).2 = LookupOutcome.ambiguousError msg →
        r.loggedErrors = [msg]) := by
  rcases hout with hnf | ⟨msg, hamb⟩
  · refine ⟨finishResolve doc (parseLoginHost lh).1
      (routingGetServerUri doc.rootClusterId doc.leafClusterId (parseLoginHost lh).2)
      (parseLoginHost lh).2 [], ?_, ?_, ?_, ?_, ?_⟩
    · simp [resolveLoginHost, hlh, hnf]
    · simp [finishResolve, applyPatch, resolvedPatch, routingParseServerUriServerId,
        routingGetServerUri]
    · simp [finishResolve, applyPatch, resolvedPatch]
    · intro _; simp [finishResolve]
    · intro m hm; rw [hnf] at hm; cases hm
  · refine ⟨finishResolve doc (parseLoginHost lh).1
      (routingGetServerUri doc.rootClusterId doc.leafClusterId (parseLoginHost lh).2)
      (parseLoginHost lh).2 [msg], ?_, ?_, ?_, ?_, ?_⟩
    · simp [resolveLoginHost, hlh, hamb]
    · simp [finishResolve, applyPatch, resolvedPatch, routingParseServerUriServerId,
        routingGetServerUri]
    · simp [finishResolve, applyPatch, resolvedPatch]
    · intro hm; rw [hamb] at hm; cases hm
    · intro m hm
      rw [hamb] at hm
      cases hm
      simp [finishResolve]

/-- Witness for C1: the document with `loginHost` "alice@h1" against an
always-ambiguous lookup. -/
theorem resolveLoginHost_fallback_no_throw_check :
    ∃ r, resolveLoginHost lookupAmb (docLH "alice@h1") = Except.ok r ∧
      r.updatedDoc.serverId = some (parseLoginHost (js "alice@h1")).2 ∧
      r.updatedDoc.serverUri =
        some (routingGetServerUri (docLH "alice@h1").rootClusterId
          (docLH "alice@h1").leafClusterId (parseLoginHost (js "alice@h1")).2) ∧
      (lookupAmb (parseLoginHost (js "alice@h1")).2 = LookupOutcome.notFound →
        r.loggedErrors = []) ∧
      (∀ msg, lookupAmb (parseLoginHost (js "alice@h1")).2 =
          LookupOutcome.ambiguousError msg → r.loggedErrors = [msg]) :=
  resolveLoginHost_fallback_no_throw lookupAmb (docLH "alice@h1") (js "alice@h1")
    (by decide) (Or.inr ⟨js "ambiguous hostname", by decide⟩)

/-- C3 counterexample: for `loginHost` "@h", the resolved document's login is
the empty string — present, not absent — yet the stored title is the bare
hostname "h", not login ++ "@" ++ hostname (which would be "@h"). So "the
title equals login + \"@\" + hostname when a login is present" fails as
stated. -/
theorem resolveLoginHost_emptyLogin_bare_title :
    resolvedLoginTitle lookupNone (docLH "@h") = some (some [], js "h") ∧
    js "h" ≠ ([] : JSString) ++ '@' :: js "h" := by
  constructor
  · rfl
  · decide

/-- C3 (amended): for any resolvable `loginHost` document, `resolveLoginHost`
issues exactly one store update; that update clears `loginHost` and sets
`serverId`, `serverUri`, `login` and `title` and nothing else; the returned
value is the original document merged with exactly that patch, with
`loginHost` absent and `serverId`/`title` populated afterwards; and the title
is login ++ "@" ++ hostname when a nonempty login is present and just the
hostname otherwise (an empty-but-present login also yields the bare
hostname). -/
theorem resolveLoginHost_single_update
    (lookup : JSString → LookupOutcome) (doc : Doc) (lh : JSString) (r : ResolveResult)
    (hlh : doc.loginHost = some lh)
    (hok : resolveLoginHost lookup doc = Except.ok r) :
    ∃ p : DocPatch,
      r.storeOps = [StoreOp.update doc.uri p] ∧
      r.updatedDoc = applyPatch doc p ∧
      p.loginHost = some none ∧
      p.login = some (parseLoginHost lh).1 ∧
      (∃ u, p.serverUri = some u ∧ p.serverId = some (routingParseServerUriServerId u)) ∧
      p.title = some (titleFor (parseLoginHost lh).1
        (lookedUpHostname lookup (parseLoginHost lh).2)) ∧
      (∀ l, (parseLoginHost lh).1 = some l → l ≠ [] →
        p.title = some (l ++ '@' :: lookedUpHostname lookup (parseLoginHost lh).2)) ∧
      ((parseLoginHost lh).1 = none ∨ (parseLoginHost lh).1 = some [] →
        p.title = some (lookedUpHostname lookup (parseLoginHost lh).2)) ∧
      p.status = none ∧ p.cwd = none ∧ p.initCommand = none ∧
      r.updatedDoc.loginHost = none ∧
      r.updatedDoc.serverId.isSome = true ∧
      r.updatedDoc.title = p.title.getD [] := by
  cases hl : lookup (parseLoginHost lh).2 with
  | otherError msg =>
    rw [resolveLoginHost] at hok
    simp only [hlh, Option.getD_some, hl] at hok
    cases hok
  | found s =>
    rw [resolveLoginHost] at hok
    simp only [hlh, Option.getD_some, hl] at hok
    rw [Except.ok.injEq] at hok
    subst hok
    refine ⟨resolvedPatch (parseLoginHost lh).1 s.uri s.hostname, rfl, rfl, rfl, rfl,
      ⟨s.uri, rfl, rfl⟩, ?_, ?_, ?_, rfl, rfl, rfl, ?_, ?_, ?_⟩
    · simp [resolvedPatch, lookedUpHostname, hl]
    · intro l hll hlne
      simp [resolvedPatch, titleFor, hll, hlne, lookedUpHostname, hl]
    · rintro (hnone | hempty)
      · simp [resolvedPatch, titleFor, hnone, lookedUpHostname, hl]
      · simp [resolvedPatch, titleFor, hempty, lookedUpHostname, hl]
    · simp [finishResolve, applyPatch, resolvedPatch]
    · simp [finishResolve, applyPatch, resolvedPatch]
    · simp [finishResolve, applyPatch, resolvedPatch]
  | notFound =>
    rw [resolveLoginHost] at hok
    simp only [hlh, Option.getD_some, hl] at hok
    rw [Except.ok.injEq] at hok
    subst hok
    refine ⟨resolvedPatch (parseLoginHost lh).1
      (routingGetServerUri doc.rootClusterId doc.leafClusterId (parseLoginHost lh).2)
      (parseLoginHost lh).2, rfl, rfl, rfl, rfl, ⟨_, rfl, rfl⟩, ?_, ?_, ?_, rfl, rfl, rfl,
      ?_, ?_, ?_⟩
    · simp [resolvedPatch, lookedUpHostname, hl]
    · intro l hll hlne
      simp [resolvedPatch, titleFor, hll, hlne, lookedUpHostname, hl]
    · rintro (hnone | hempty)
      · simp [resolvedPatch, titleFor, hnone, lookedUpHostname, hl]
      · simp [resolvedPatch, titleFor, hempty, lookedUpHostname, hl]
    · simp [finishResolve, applyPatch, resolvedPatch]
    · simp [finishResolve, applyPatch, resolvedPatch]
    · simp [finishResolve, applyPatch, resolvedPatch]
  | ambiguousError msg =>
    rw [resolveLoginHost] at hok
    simp only [hlh, Option.getD_some, hl] at hok
    rw [Except.ok.injEq] at hok
    subst hok
    refine ⟨resolvedPatch (parseLoginHost lh).1
      (routingGetServerUri doc.rootClusterId doc.leafClusterId (parseLoginHost lh).2)
      (parseLoginHost lh).2, rfl, rfl, rfl, rfl, ⟨_, rfl, rfl⟩, ?_, ?_, ?_, rfl, rfl, rfl,
      ?_, ?_, ?_⟩
    · simp [resolvedPatch, lookedUpHostname, hl]
    · intro l hll hlne
      simp [resolvedPatch, titleFor, hll, hlne, lookedUpHostname, hl]
    · rintro (hnone | hempty)
      · simp [resolvedPatch, titleFor, hnone, lookedUpHostname, hl]
      · simp [resolvedPatch, titleFor, hempty, lookedUpHostname, hl]
    · simp [finishResolve, applyPatch, resolvedPatch]
    · simp [finishResolve, applyPatch, resolvedPatch]
    · simp [finishResolve, applyPatch, resolvedPatch]

/-- Witness for C3 at `loginHost` "alice@h1" against a lookup finding no
server. -/
theorem resolveLoginHost_single_update_check :
    ∃ p : DocPatch,
      (finishResolve (docLH "alice@h1") (some (js "alice"))
          (routingGetServerUri (js "prod") none (js "h1")) (js "h1") []).storeOps =
        [StoreOp.update (docLH "alice@h1").uri p] ∧
      (finishResolve (docLH "alice@h1") (some (js "alice"))
          (routingGetServerUri (js "prod") none (js "h1")) (js "h1") []).updatedDoc =
        applyPatch (docLH "alice@h1") p ∧
      p.loginHost = some none ∧
      p.login = some (parseLoginHost (js "alice@h1")).1 ∧
      (∃ u, p.serverUri = some u ∧ p.serverId = some (routingParseServerUriServerId u)) ∧
      p.title = some (titleFor (parseLoginHost (js "alice@h1")).1
        (lookedUpHostname lookupNone (parseLoginHost (js "alice@h1")).2)) ∧
      (∀ l, (parseLoginHost (js "alice@h1")).1 = some l → l ≠ [] →
        p.title = some (l ++ '@' ::
          lookedUpHostname lookupNone (parseLoginHost (js "alice@h1")).2)) ∧
      ((parseLoginHost (js "alice@h1")).1 = none ∨
          (parseLoginHost (js "alice@h1")).1 = some [] →
        p.title = some (lookedUpHostname lookupNone (parseLoginHost (js "alice@h1")).2)) ∧
      p.status = none ∧ p.cwd = none ∧ p.initCommand = none ∧
      (finishResolve (docLH "alice@h1") (some (js "alice"))
          (routingGetServerUri (js "prod") none (js "h1")) (js "h1")
          []).updatedDoc.loginHost = none ∧
      (finishResolve (docLH "alice@h1") (some (js "alice"))
          (routingGetServerUri (js "prod") none (js "h1")) (js "h1")
          []).updatedDoc.serverId.isSome = true ∧
      (finishResolve (docLH "alice@h1") (some (js "alice"))
          (routingGetServerUri (js "prod") none (js "h1")) (js "h1")
          []).updatedDoc.title = p.title.getD [] :=
  resolveLoginHost_single_update lookupNone (docLH "alice@h1") (js "alice@h1")
    (finishResolve (docLH "alice@h1") (some (js "alice"))
      (routingGetServerUri (js "prod") none (js "h1")) (js "h1") [])
    (by decide) (by rfl)

/-- Parsing an input consisting of `'@'` followed by an `'@'`-free host yields
an empty (but present) login and that host. -/
theorem parseLoginHost_at_cons (host : JSString) (hh : '@' ∉ host) :
    parseLoginHost ('@' :: host) = (some [], host) := by
  have hsplit : splitOnChar '@' ('@' :: host) = [[], host] := by
    show (splitAux '@' ('@' :: host)).1 :: (splitAux '@' ('@' :: host)).2 = [[], host]
    rw [splitAux_cons_pos '@' '@' host rfl, splitAux_no_sep '@' host hh]
  unfold parseLoginHost
  rw [hsplit]
  simp [joinWith, List.getLastD, List.dropLast]

/-- C10 counterexample: the input "@a@b" begins with `'@'`, yet the stored
login is "@a" (not the empty string) and the stored title is "@a@b" (not the
bare hostname "b"). -/
theorem resolveLoginHost_at_multiAt_login :
    resolvedLoginTitle lookupNone (docLH "@a@b") = some (some (js "@a"), js "@a@b") ∧
    some (js "@a") ≠ some ([] : JSString) ∧
    js "@a@b" ≠ js "b" := by
  refine ⟨rfl, by decide, by decide⟩

/-- C10 (amended): for a `loginHost` of `'@'` followed by an `'@'`-free host,
`resolveLoginHost` stores the login as the empty string — present, not
absent — in the document update, yet derives the title as just the hostname
with no login prefix. -/
theorem resolveLoginHost_emptyLogin_stored
    (lookup : JSString → LookupOutcome) (doc : Doc) (host : JSString) (r : ResolveResult)
    (hh : '@' ∉ host)
    (hlh : doc.loginHost = some ('@' :: host))
    (hok : resolveLoginHost lookup doc = Except.ok r) :
    ∃ p, r.storeOps = [StoreOp.update doc.uri p] ∧
      p.login = some (some []) ∧
      r.updatedDoc.login = some [] ∧
      p.title = some (lookedUpHostname lookup host) ∧
      r.updatedDoc.title = lookedUpHostname lookup host := by
  have hp := parseLoginHost_at_cons host hh
  rw [resolveLoginHost] at hok
  simp only [hlh, Option.getD_some, hp] at hok
  cases hl : lookup host with
  | otherError msg =>
    rw [hl] at hok
    cases hok
  | found s =>
    rw [hl] at hok
    rw [Except.ok.injEq] at hok
    subst hok
    refine ⟨resolvedPatch (some []) s.uri s.hostname, rfl, rfl, ?_, ?_, ?_⟩
    · simp [finishResolve, applyPatch, resolvedPatch]
    · simp [resolvedPatch, titleFor, lookedUpHostname, hl]
    · simp [finishResolve, applyPatch, resolvedPatch, titleFor, lookedUpHostname, hl]
  | notFound =>
    rw [hl] at hok
    rw [Except.ok.injEq] at hok
    subst hok
    refine ⟨resolvedPatch (some [])
      (routingGetServerUri doc.rootClusterId doc.leafClusterId host) host,
      rfl, rfl, ?_, ?_, ?_⟩
    · simp [finishResolve, applyPatch, resolvedPatch]
    · simp [resolvedPatch, titleFor, lookedUpHostname, hl]
    · simp [finishResolve, applyPatch, resolvedPatch, titleFor, lookedUpHostname, hl]
  | ambiguousError msg =>
    rw [hl] at hok
    rw [Except.ok.injEq] at hok
    subst hok
    refine ⟨resolvedPatch (some [])
      (routingGetServerUri doc.rootClusterId doc.leafClusterId host) host,
      rfl, rfl, ?_, ?_, ?_⟩
    · simp [finishResolve, applyPatch, resolvedPatch]
    · simp [resolvedPatch, titleFor, lookedUpHostname, hl]
    · simp [finishResolve, applyPatch, resolvedPatch, titleFor, lookedUpHostname, hl]

/-- Witness for the amended C10 at `loginHost` "@h". -/
theorem resolveLoginHost_emptyLogin_stored_check :
    ∃ p, (finishResolve (docLH "@h") (some [])
        (routingGetServerUri (js "prod") none (js "h")) (js "h") []).storeOps =
      [StoreOp.update (docLH "@h").uri p] ∧
      p.login = some (some []) ∧
      (finishResolve (docLH "@h") (some [])
        (routingGetServerUri (js "prod") none (js "h")) (js "h") []).updatedDoc.login =
        some [] ∧
      p.title = some (lookedUpHostname lookupNone (js "h")) ∧
      (finishResolve (docLH "@h") (some [])
        (routingGetServerUri (js "prod") none (js "h")) (js "h") []).updatedDoc.title =
        lookedUpHostname lookupNone (js "h") :=
  resolveLoginHost_emptyLogin_stored lookupNone (docLH "@h") (js "h")
    (finishResolve (docLH "@h") (some [])
      (routingGetServerUri (js "prod") none (js "h")) (js "h") [])
    (by decide) (by decide) (by rfl)

/-- After the one-shot gate has fired, further data events issue nothing. -/
theorem runDataEvents_gated (doc : Doc) (n : Nat) :
    runDataEvents doc n true = [] := by
  induction n with
  | zero => rfl
  | succ n ih => simp [runDataEvents, onDataEvent, runOnceStep, ih]

/-- C4: over any sequence of at least one data event, a status-tracking
document receives exactly one `connected` status update (from the first
event; later events trigger nothing), a non-tracking document receives none,
and every session built by `setUpPtyProcess` starts with a fresh, unfired
one-shot gate. -/
theorem onData_marks_connected_once (doc : Doc) (n : Nat) (hn : 1 ≤ n) :
    (doc.status.isSome = true →
      runDataEvents doc n false = [StoreOp.update doc.uri connectedStatusPatch]) ∧
    (doc.status.isSome = false → runDataEvents doc n false = []) ∧
    (∀ pctx d s, setUpPtyProcess pctx d = Except.ok s → s.dataGateHasRun = false) := by
  obtain ⟨m, rfl⟩ : ∃ m, n = m + 1 := ⟨n - 1, by omega⟩
  refine ⟨?_, ?_, ?_⟩
  · intro hst
    simp [runDataEvents, onDataEvent, runOnceStep, markDocumentAsConnected, hst,
      runDataEvents_gated]
  · intro hst
    simp [runDataEvents, onDataEvent, runOnceStep, markDocumentAsConnected, hst,
      runDataEvents_gated]
  · intro pctx d s hs
    unfold setUpPtyProcess at hs
    cases hg : getClusterName pctx d with
    | error e => rw [hg] at hs; cases hs
    | ok cn =>
      rw [hg] at hs
      dsimp only at hs
      cases hc : createCmd d pctx.proxyHost cn with
      | error e => rw [hc] at hs; cases hs
      | ok cmd =>
        rw [hc] at hs
        dsimp only at hs
        cases hs
        rfl

/-- Witness for C4: three data events on the status-tracking shell document
issue exactly one `connected` update. -/
theorem onData_marks_connected_once_check :
    runDataEvents shellDoc 3 false = [StoreOp.update shellDoc.uri connectedStatusPatch] :=
  (onData_marks_connected_once shellDoc 3 (by decide)).1 (by decide)

/-- C5: an exit event closes the document exactly when the exit code is zero;
on a non-zero exit code no store operation at all is issued, so the document
remains present. -/
theorem onExit_closes_iff_zero (doc : Doc) (exitCode : Int) :
    (StoreOp.close doc.uri ∈ onExitEvent doc exitCode ↔ exitCode = 0) ∧
    (exitCode ≠ 0 → onExitEvent doc exitCode = []) := by
  constructor
  · constructor
    · intro hmem
      by_contra hne
      simp [onExitEvent, hne] at hmem
    · intro h0
      simp [onExitEvent, h0]
  · intro hne
    simp [onExitEvent, hne]

/-- Witness for C5 at exit codes 0 and 5. -/
theorem onExit_closes_iff_zero_check :
    (StoreOp.close shellDoc.uri ∈ onExitEvent shellDoc 0 ↔ (0 : Int) = 0) ∧
    onExitEvent shellDoc 5 = [] :=
  ⟨(onExit_closes_iff_zero shellDoc 0).1,
   (onExit_closes_iff_zero shellDoc 5).2 (by decide)⟩

/-- C6: on an open event, (a) for a shell command exactly one update sets the
document's cwd and the title "<cwd> · <clusterName>", the cwd segment
defaulting to 'Terminal' when the queried cwd is unavailable (empty); (b) a
document carrying a one-shot initCommand gets exactly one update clearing
initCommand from its persisted state, so a document restored from the store
no longer carries it; and the open handler issues exactly these operations,
once per open event. -/
theorem onOpen_title_and_initCommand (cmd : PtyCommand) (doc : Doc)
    (cwd clusterName : JSString) (hwf : DocWf doc) :
    (cmd.kind = PtyCommandKind.shell →
      refreshTitleOps cmd doc cwd clusterName =
        [StoreOp.update doc.uri
          { cwd := some cwd
            title := some ((if cwd = [] then js "Terminal" else cwd) ++
              js " · " ++ clusterName) }]) ∧
    (doc.initCommand.isSome →
      removeInitCommandOps doc = [StoreOp.update doc.uri clearInitCommandPatch]) ∧
    (∀ d, (applyPatch d clearInitCommandPatch).initCommand = none) ∧
    onOpenEvent cmd doc cwd clusterName =
      refreshTitleOps cmd doc cwd clusterName ++ removeInitCommandOps doc := by
  refine ⟨?_, ?_, ?_, rfl⟩
  · intro hk
    simp [refreshTitleOps, hk]
  · intro hic
    simp [removeInitCommandOps, hwf.2 hic]
  · intro d
    simp [applyPatch, clearInitCommandPatch]

/-- Witness for C6 on the shell document with an empty queried cwd. -/
theorem onOpen_title_and_initCommand_check :
    refreshTitleOps shellCmd shellDoc [] (js "prod") =
      [StoreOp.update shellDoc.uri
        { cwd := some []
          title := some ((if ([] : JSString) = [] then js "Terminal" else []) ++
            js " · " ++ js "prod") }] ∧
    removeInitCommandOps shellDoc = [StoreOp.update shellDoc.uri clearInitCommandPatch] :=
  ⟨(onOpen_title_and_initCommand shellCmd shellDoc [] (js "prod") (by decide)).1 rfl,
   (onOpen_title_and_initCommand shellCmd shellDoc [] (js "prod") (by decide)).2.1
     (by decide)⟩

/-- C7: a lookup failure other than `AmbiguousHostnameError` is rethrown by
`resolveLoginHost`, the attempt fails with that error, and the orchestrator
issues a status `error` update (exactly when the document tracks status)
before propagating it. -/
theorem lookupError_fails_attempt
    (lookup : JSString → LookupOutcome) (pctx : SetupCtx) (doc : Doc)
    (lh msg : JSString)
    (hlh : doc.loginHost = some lh)
    (hkind : doc.kind = DocKind.terminal_tsh_node)
    (herr : lookup (parseLoginHost lh).2 = LookupOutcome.otherError msg) :
    resolveLoginHost lookup doc = Except.error msg ∧
    startTerminalAttempt lookup pctx doc =
      (Except.error msg,
        if doc.status.isSome then [StoreOp.update doc.uri errorStatusPatch] else []) := by
  have hres : resolveLoginHost lookup doc = Except.error msg := by
    rw [resolveLoginHost]
    simp only [hlh, Option.getD_some, herr]
  have hdoc : isDocumentTshNodeWithLoginHost doc = true := by
    simp [isDocumentTshNodeWithLoginHost, hkind, hlh]
  refine ⟨hres, ?_⟩
  rw [startTerminalAttempt, startTerminalSession, if_pos hdoc, hres]
  simp

/-- Witness for C7: the "alice@h1" document against an always-failing
lookup. -/
theorem lookupError_fails_attempt_check :
    resolveLoginHost lookupBoom (docLH "alice@h1") = Except.error (js "boom") ∧
    startTerminalAttempt lookupBoom ctx0 (docLH "alice@h1") =
      (Except.error (js "boom"),
        if (docLH "alice@h1").status.isSome then
          [StoreOp.update (docLH "alice@h1").uri errorStatusPatch]
        else []) :=
  lookupError_fails_attempt lookupBoom ctx0 (docLH "alice@h1") (js "alice@h1")
    (js "boom") (by decide) (by decide) (by decide)

/-- C8: for a well-formed document, `createCmd` throws exactly when given a
tsh-node document without a resolved `serverId` (one still carrying
`loginHost`); on every other variant it is total and returns a command of the
matching kind with `proxyHost` and `clusterName` injected. -/
theorem createCmd_contract (doc : Doc) (proxyHost clusterName : JSString)
    (hwf : DocWf doc) :
    ((∃ e, createCmd doc proxyHost clusterName = Except.error e) ↔
      (doc.kind = DocKind.terminal_tsh_node ∧ doc.serverId = none)) ∧
    (∀ cmd, createCmd doc proxyHost clusterName = Except.ok cmd →
      cmd.kind = matchingPtyKind doc.kind ∧
      cmd.proxyHost = proxyHost ∧ cmd.clusterName = clusterName) := by
  constructor
  · constructor
    · rintro ⟨e, he⟩
      cases hk : doc.kind with
      | terminal_tsh_kube => simp only [createCmd, hk] at he; cases he
      | terminal_shell => simp only [createCmd, hk] at he; cases he
      | terminal_tsh_node =>
        simp only [createCmd, hk] at he
        by_cases hb : isDocumentTshNodeWithLoginHost doc = true
        · refine ⟨rfl, ?_⟩
          rw [isDocumentTshNodeWithLoginHost, Bool.and_eq_true] at hb
          exact (hwf.1 hk).mp hb.2
        · rw [if_neg (by simpa using hb)] at he
          cases he
    · rintro ⟨hk, hsid⟩
      have hb : isDocumentTshNodeWithLoginHost doc = true := by
        rw [isDocumentTshNodeWithLoginHost, Bool.and_eq_true]
        exact ⟨by simp [hk], (hwf.1 hk).mpr hsid⟩
      exact ⟨_, by simp only [createCmd, hk]; rw [if_pos (by simpa using hb)]⟩
  · intro cmd hcmd
    cases hk : doc.kind with
    | terminal_tsh_kube =>
      simp only [createCmd, hk] at hcmd
      cases hcmd
      simp [matchingPtyKind, hk]
    | terminal_shell =>
      simp only [createCmd, hk] at hcmd
      cases hcmd
      simp [matchingPtyKind, hk]
    | terminal_tsh_node =>
      simp only [createCmd, hk] at hcmd
      by_cases hb : isDocumentTshNodeWithLoginHost doc = true
      · rw [if_pos (by simpa using hb)] at hcmd
        cases hcmd
      · rw [if_neg (by simpa using hb)] at hcmd
        cases hcmd
        simp [matchingPtyKind, hk]

/-- Witness for C8 on the shell document. -/
theorem createCmd_contract_check :
    ((∃ e, createCmd shellDoc (js "p") (js "c") = Except.error e) ↔
      (shellDoc.kind = DocKind.terminal_tsh_node ∧ shellDoc.serverId = none)) ∧
    (∀ cmd, createCmd shellDoc (js "p") (js "c") = Except.ok cmd →
      cmd.kind = matchingPtyKind shellDoc.kind ∧
      cmd.proxyHost = js "p" ∧ cmd.clusterName = js "c") :=
  createCmd_contract shellDoc (js "p") (js "c") (by decide)

/-- C9: on a status-tracking document, `reconnect` issues the `connecting`
status update strictly before invoking the new attempt's start, and the
cleanup that runs when an attempt is superseded disposes the prior successful
attempt's process handle. -/
theorem reconnect_connecting_before_start (doc : Doc)
    (hst : doc.status.isSome = true) :
    reconnectActions doc =
      [AttemptAction.storeUpdate doc.uri connectingStatusPatch,
        AttemptAction.startAttempt] ∧
    effectCleanup AttemptStatus.success = [AttemptAction.disposeHandle] := by
  constructor
  · simp [reconnectActions, hst]
  · rfl

/-- Witness for C9 on the status-tracking shell document. -/
theorem reconnect_connecting_before_start_check :
    reconnectActions shellDoc =
      [AttemptAction.storeUpdate shellDoc.uri connectingStatusPatch,
        AttemptAction.startAttempt] ∧
    effectCleanup AttemptStatus.success = [AttemptAction.disposeHandle] :=
  reconnect_connecting_before_start shellDoc (by decide)

end TeleportTerminal
